import Mathlib

/-!
Shallow embedding of the STM32F407 SPI-slave LED controller
(`Core/Src/spi_slave.c`, `Core/Inc/spi_slave.h`).

Modelling conventions:
* A C byte buffer region up to (not including) its NUL terminator is a
  `List Nat` of byte values; reading past the end of the listed bytes
  yields 0, matching the zero-filled 32-byte buffers of the source.
* The GPIO pin writes performed by `LED_SetState` and the physical SPI
  transfer engine are external capabilities outside the model; the call
  `HAL_SPI_TransmitReceive_IT(&hspi1, txBuffer, rxBuffer, BUFFER_SIZE)`
  is recorded as the `armed` flag of the machine state.
* Machine integers (`uint8_t` values) are `Nat`; all stored values are
  produced by the code itself and stay below 256.
-/

namespace SpiSlave

/-- BUFFER_SIZE from spi_slave.c: capacity of the rx and tx buffers. -/
def BUFFER_SIZE : Nat := 32

/-- Byte strings: the bytes of a C string strictly before its NUL. -/
abbrev Bytes := List Nat

/-- The bytes of the literal "OK\n". -/
def okResp : Bytes := [79, 75, 10]

/-- The bytes of the literal "ERR\n". -/
def errResp : Bytes := [69, 82, 82, 10]

/-- The bytes of the literal "RDY\n". -/
def rdyResp : Bytes := [82, 68, 89, 10]

/-- The bytes of the pattern "LED:". -/
def ledTag : Bytes := [76, 69, 68, 58]

/-- The bytes of the pattern "GET:LED". -/
def getLedTag : Bytes := [71, 69, 84, 58, 76, 69, 68]

/-- An all-zero BUFFER_SIZE frame, the result of
memset(buf, 0, BUFFER_SIZE). -/
def zeroFrame : Bytes := List.replicate BUFFER_SIZE 0

/-- Contents of a BUFFER_SIZE buffer after memset(buf, 0, BUFFER_SIZE)
followed by strncpy(buf, s, BUFFER_SIZE - 1) for a NUL-free string s:
s truncated to 31 bytes, the rest zero.  (For s shorter than 31 bytes
this is also the result of a plain strcpy into the zeroed buffer, as in
SPI_Slave_Init and HAL_SPI_ErrorCallback.) -/
def bufferWith (s : Bytes) : Bytes :=
  s.take (BUFFER_SIZE - 1) ++
    List.replicate (BUFFER_SIZE - (s.take (BUFFER_SIZE - 1)).length) 0

/-- Contents of a BUFFER_SIZE buffer after memset(buf, 0, BUFFER_SIZE)
followed by an unbounded strcpy(buf, s), as in SPI_Slave_Poll: no
truncation, so a source longer than the buffer overflows (the model
keeps the overflowing bytes that the C writes out of bounds). -/
def bufferWithStrcpy (s : Bytes) : Bytes :=
  s ++ List.replicate (BUFFER_SIZE - s.length) 0

/-- A 32-byte inbound frame holding the bytes s followed by zero fill,
as produced by a master that sends the command s and pads with zeros. -/
def mkFrame (s : Bytes) : Bytes :=
  s ++ List.replicate (BUFFER_SIZE - s.length) 0

/-- LED_SetState from spi_slave.c: returns early when index >= 4,
otherwise stores state ? 1 : 0 into ledStates[index].  The
HAL_GPIO_WritePin switch is an external pin effect outside the model. -/
def LED_SetState (index state : Nat) (led : Bytes) : Bytes :=
  if 4 ≤ index then led
  else led.set index (if state = 0 then 0 else 1)

/-- LED_SetAll from spi_slave.c: for (i = 0; i < 4; i++)
LED_SetState(i, state). -/
def LED_SetAll (state : Nat) (led : Bytes) : Bytes :=
  (List.range 4).foldl (fun l i => LED_SetState i state l) led

/-- The token-extraction loop of ProcessCommand: copy bytes of cmdRaw
while i < BUFFER_SIZE - 1 and the byte is neither a newline (10) nor a
NUL (0); the trailing cmd[i] = 0 terminator is implicit in the list
representation. -/
def extractToken (cmdRaw : Bytes) : Bytes :=
  (cmdRaw.take (BUFFER_SIZE - 1)).takeWhile fun b => b != 10 && b != 0

/-- Truth of strncmp(cmd, pat, pat.length) == 0 for a NUL-free pattern
pat, with cmd the extracted token: position j of the token buffer reads
as the copied byte for j below the token length and as the written NUL
terminator (0) past it, which is exactly getD j 0 since the token holds
no 0 byte. -/
def strncmpIsZero (cmd pat : Bytes) : Bool :=
  (List.range pat.length).all fun j => cmd.getD j 0 == pat.getD j 0

/-- Decimal ASCII rendering of one %d conversion of a uint8_t value
(always < 256, so at most three digits), as produced by snprintf. -/
def decBytes (n : Nat) : Bytes :=
  if n < 10 then [48 + n]
  else if n < 100 then [48 + n / 10, 48 + n % 10]
  else [48 + n / 100, 48 + n / 10 % 10, 48 + n % 10]

/-- Result of snprintf(response, BUFFER_SIZE, "STA:%d%d%d%d\n",
ledStates[0], ledStates[1], ledStates[2], ledStates[3]): the formatted
string truncated by snprintf to at most BUFFER_SIZE - 1 bytes. -/
def staBytes (led : Bytes) : Bytes :=
  ([83, 84, 65, 58] ++ decBytes (led.getD 0 0) ++ decBytes (led.getD 1 0)
      ++ decBytes (led.getD 2 0) ++ decBytes (led.getD 3 0) ++ [10]).take
    (BUFFER_SIZE - 1)

/-- ProcessCommand from spi_slave.c.  Arguments: the raw inbound frame
and the caller's response buffer contents; result: the updated
(ledStates, response) pair.  Byte values: 'L' 76, 'E' 69, 'D' 68,
':' 58, 'G' 71, 'O' 79, 'R' 82, 'B' 66, 'A' 65, '0' 48, '1' 49.
One note on cmd.getD 5 0: when the extracted token is exactly "LED:"
(length 4) the C reads the uninitialized byte cmd[5]; every possible
value of that byte yields the same observable result as reading 0 —
either the value-byte test fails and the function returns, or the
switch on color = 0 matches no case — so the model reads 0 there. -/
def ProcessCommand (cmdRaw : Bytes) (led : Bytes) (response : Bytes) :
    Bytes × Bytes :=
  let cmd := extractToken cmdRaw
  if strncmpIsZero cmd ledTag then
    let color := cmd.getD 4 0
    let state := cmd.getD 5 0
    if state ≠ 48 ∧ state ≠ 49 then (led, response)
    else
      let stateVal := if state = 49 then 1 else 0
      if color = 71 then (LED_SetState 0 stateVal led, okResp)
      else if color = 79 then (LED_SetState 1 stateVal led, okResp)
      else if color = 82 then (LED_SetState 2 stateVal led, okResp)
      else if color = 66 then (LED_SetState 3 stateVal led, okResp)
      else if color = 65 then (LED_SetAll stateVal led, okResp)
      else (led, response)
  else if strncmpIsZero cmd getLedTag then
    (led, staBytes led)
  else (led, response)

/-- The parsed command variant, following the branch structure of
ProcessCommand exactly (the data model's Command tagged variant). -/
inductive Command
  | setChannel (index val : Nat)
  | setAll (val : Nat)
  | query
  | unrecognized
deriving DecidableEq

/-- The branch of ProcessCommand an inbound frame selects. -/
def parseCommand (cmdRaw : Bytes) : Command :=
  let cmd := extractToken cmdRaw
  if strncmpIsZero cmd ledTag then
    let color := cmd.getD 4 0
    let state := cmd.getD 5 0
    if state ≠ 48 ∧ state ≠ 49 then .unrecognized
    else
      let stateVal := if state = 49 then 1 else 0
      if color = 71 then .setChannel 0 stateVal
      else if color = 79 then .setChannel 1 stateVal
      else if color = 82 then .setChannel 2 stateVal
      else if color = 66 then .setChannel 3 stateVal
      else if color = 65 then .setAll stateVal
      else .unrecognized
  else if strncmpIsZero cmd getLedTag then .query
  else .unrecognized

/-- Effect of each Command variant on (ledStates, response), the common
factor of ProcessCommand's branches. -/
def applyCommand (c : Command) (led : Bytes) (response : Bytes) :
    Bytes × Bytes :=
  match c with
  | .setChannel index val => (LED_SetState index val led, okResp)
  | .setAll val => (LED_SetAll val led, okResp)
  | .query => (led, staBytes led)
  | .unrecognized => (led, response)

/-- The machine state owned by spi_slave.c: the static ledStates,
rxBuffer and txBuffer arrays, and whether a duplex exchange is armed
(HAL_SPI_TransmitReceive_IT has been started on txBuffer/rxBuffer). -/
structure SlaveState where
  ledStates : Bytes
  rxBuffer : Bytes
  txBuffer : Bytes
  armed : Bool
deriving DecidableEq

/-- The state of the zero-initialized C statics before SPI_Slave_Init:
ledStates = {0}, both buffers zero, no exchange armed. -/
def initialStatics : SlaveState :=
  { ledStates := [0, 0, 0, 0]
    rxBuffer := zeroFrame
    txBuffer := zeroFrame
    armed := false }

/-- SPI_Slave_Init from spi_slave.c: LED_SetAll(0), zero both buffers,
strcpy "RDY\n" into txBuffer, start the first interrupt exchange. -/
def SPI_Slave_Init (s : SlaveState) : SlaveState :=
  { ledStates := LED_SetAll 0 s.ledStates
    rxBuffer := zeroFrame
    txBuffer := bufferWith rdyResp
    armed := true }

/-- HAL_SPI_TxRxCpltCallback from spi_slave.c, for the matching SPI
instance, with frame the 32 bytes the completed exchange deposited in
rxBuffer: seed a zeroed local response with "ERR\n", run
ProcessCommand, move the response into the zeroed txBuffer with
strncpy(.., BUFFER_SIZE - 1), zero rxBuffer, re-arm. -/
def HAL_SPI_TxRxCpltCallback (frame : Bytes) (s : SlaveState) :
    SlaveState :=
  let pr := ProcessCommand frame s.ledStates errResp
  { ledStates := pr.1
    rxBuffer := zeroFrame
    txBuffer := bufferWith pr.2
    armed := true }

/-- HAL_SPI_ErrorCallback from spi_slave.c, for the matching SPI
instance: zero both buffers, strcpy "ERR\n" into txBuffer, re-arm.
ledStates are untouched. -/
def HAL_SPI_ErrorCallback (s : SlaveState) : SlaveState :=
  { s with
    rxBuffer := zeroFrame
    txBuffer := bufferWith errResp
    armed := true }

/-- SPI_Slave_Poll from spi_slave.c, modelling one call in which the
chip-select line reads low and the blocking HAL_SPI_TransmitReceive
returns HAL_OK after depositing frame into the (previously zeroed)
rxBuffer.  junkResponse is the indeterminate content of the local
char response[BUFFER_SIZE] array, which — unlike in
HAL_SPI_TxRxCpltCallback — is NOT initialized and NOT seeded with
"ERR\n" before ProcessCommand runs.  After processing, txBuffer is
zeroed and the response installed with an unbounded strcpy; rxBuffer
keeps the received frame (the polling path never clears it after
processing), and no interrupt exchange is armed. -/
def SPI_Slave_Poll (frame : Bytes) (junkResponse : Bytes)
    (s : SlaveState) : SlaveState :=
  let pr := ProcessCommand frame s.ledStates junkResponse
  { ledStates := pr.1
    rxBuffer := frame
    txBuffer := bufferWithStrcpy pr.2
    armed := s.armed }

/-- SPI_Slave_SetLED from spi_slave.c: delegates to LED_SetState. -/
def SPI_Slave_SetLED (index state : Nat) (led : Bytes) : Bytes :=
  LED_SetState index state led

/-- SPI_Slave_GetLED from spi_slave.c: 0 when index >= 4, otherwise
ledStates[index]. -/
def SPI_Slave_GetLED (index : Nat) (led : Bytes) : Nat :=
  if 4 ≤ index then 0 else led.getD index 0

/-- The two asynchronous transport events that drive the interrupt
state machine: a completed exchange carrying its inbound frame, or a
link-level fault. -/
inductive Event
  | complete (frame : Bytes)
  | fault

/-- One step of the interrupt-driven state machine: dispatch of a
transport event to its HAL callback. -/
def step (s : SlaveState) : Event → SlaveState
  | .complete frame => HAL_SPI_TxRxCpltCallback frame s
  | .fault => HAL_SPI_ErrorCallback s

/-- States of the interrupt-driven machine reachable after
SPI_Slave_Init and any sequence of transport events. -/
inductive Reachable : SlaveState → Prop
  | init (s : SlaveState) : Reachable (SPI_Slave_Init s)
  | step {s : SlaveState} (e : Event) : Reachable s → Reachable (step s e)

/-- Invariant of the ledStates array: four cells, each 0 or 1. -/
def LedInv (led : Bytes) : Prop :=
  led.length = 4 ∧ ∀ b ∈ led, b = 0 ∨ b = 1

instance decidableLedInv (led : Bytes) : Decidable (LedInv led) :=
  inferInstanceAs (Decidable (led.length = 4 ∧ ∀ b ∈ led, b = 0 ∨ b = 1))

/-- A list of length four is a four-element list literal. -/
theorem length_eq_four {l : Bytes} (h : l.length = 4) :
    ∃ a b c d, l = [a, b, c, d] := by
  rcases l with _ | ⟨a, _ | ⟨b, _ | ⟨c, _ | ⟨d, _ | ⟨e, t⟩⟩⟩⟩⟩
  · simp at h
  · simp at h
  · simp at h
  · simp at h
  · exact ⟨a, b, c, d, rfl⟩
  · simp only [List.length_cons] at h
    omega

/-- ProcessCommand is the dispatch of the parsed Command variant:
its branch structure factors through parseCommand and applyCommand. -/
theorem processCommand_eq_apply (cmdRaw led response : Bytes) :
    ProcessCommand cmdRaw led response
      = applyCommand (parseCommand cmdRaw) led response := by
  simp only [ProcessCommand, parseCommand]
  split_ifs <;> rfl

/-- LED_SetState preserves the ledStates invariant for every index and
every (not necessarily 0/1) state argument, because it normalizes the
stored value to 0 or 1. -/
theorem ledInv_setState (index state : Nat) {led : Bytes}
    (h : LedInv led) : LedInv (LED_SetState index state led) := by
  obtain ⟨hlen, hmem⟩ := h
  unfold LED_SetState
  split_ifs with hi hs
  · exact ⟨hlen, hmem⟩
  · refine ⟨by rw [List.length_set]; exact hlen, ?_⟩
    intro b hb
    rcases List.mem_or_eq_of_mem_set hb with hbl | rfl
    · exact hmem b hbl
    · exact Or.inl rfl
  · refine ⟨by rw [List.length_set]; exact hlen, ?_⟩
    intro b hb
    rcases List.mem_or_eq_of_mem_set hb with hbl | rfl
    · exact hmem b hbl
    · exact Or.inr rfl

/-- LED_SetAll preserves the ledStates invariant. -/
theorem ledInv_setAll (state : Nat) {led : Bytes} (h : LedInv led) :
    LedInv (LED_SetAll state led) := by
  have e : LED_SetAll state led
      = LED_SetState 3 state (LED_SetState 2 state
          (LED_SetState 1 state (LED_SetState 0 state led))) := rfl
  rw [e]
  exact ledInv_setState 3 state (ledInv_setState 2 state
    (ledInv_setState 1 state (ledInv_setState 0 state h)))

/-- ProcessCommand preserves the ledStates invariant for every inbound
frame and every response seed. -/
theorem ledInv_process (cmdRaw response : Bytes) {led : Bytes}
    (h : LedInv led) : LedInv (ProcessCommand cmdRaw led response).1 := by
  rw [processCommand_eq_apply]
  cases parseCommand cmdRaw with
  | setChannel i v => exact ledInv_setState i v h
  | setAll v => exact ledInv_setAll v h
  | query => exact h
  | unrecognized => exact h

/-- Reading any position of an all-binary list with default 0 yields
0 or 1. -/
theorem getD_zero_one {led : Bytes} (h : ∀ b ∈ led, b = 0 ∨ b = 1)
    (i : Nat) : led.getD i 0 = 0 ∨ led.getD i 0 = 1 := by
  induction led generalizing i with
  | nil => exact Or.inl rfl
  | cons x xs ih =>
    cases i with
    | zero => exact h x (by simp)
    | succ j => exact ih (fun b hb => h b (by simp [hb])) j

/-- C1: after each of SPI_Slave_Init, HAL_SPI_TxRxCpltCallback and
HAL_SPI_ErrorCallback returns — that is, in every reachable state of
the interrupt-driven step machine — a duplex exchange is armed on the
tx/rx buffers: the endpoint is never left un-armed. -/
theorem reachable_always_armed (s : SlaveState) (h : Reachable s) :
    s.armed = true := by
  induction h with
  | init t => rfl
  | step e _ _ => cases e <;> rfl

/-- Witness for C1 at a concrete run: init, then a fault event. -/
theorem reachable_always_armed_witness :
    (step (SPI_Slave_Init initialStatics) Event.fault).armed = true :=
  reachable_always_armed _
    (Reachable.step Event.fault (Reachable.init initialStatics))

/-- C2: for every channel symbol c in {G, O, R, B} with its index
(G = 0, O = 1, R = 2, B = 3) and every value byte v in {'0', '1'},
processing the frame "LED:<c><v>\n" through the completion callback
sets channel index(c) to the value, so SPI_Slave_GetLED reads it back,
and loads the response "OK\n" into the outbound buffer. -/
theorem led_set_channel_ok (c v idx : Nat) (s : SlaveState)
    (hc : (c = 71 ∧ idx = 0) ∨ (c = 79 ∧ idx = 1) ∨ (c = 82 ∧ idx = 2)
      ∨ (c = 66 ∧ idx = 3))
    (hv : v = 48 ∨ v = 49) (hlen : s.ledStates.length = 4) :
    SPI_Slave_GetLED idx
        (HAL_SPI_TxRxCpltCallback (mkFrame [76, 69, 68, 58, c, v, 10]) s).ledStates
      = (if v = 49 then 1 else 0) ∧
    (HAL_SPI_TxRxCpltCallback (mkFrame [76, 69, 68, 58, c, v, 10]) s).txBuffer
      = bufferWith okResp := by
  obtain ⟨led, rx, tx, ar⟩ := s
  have hlen2 : led.length = 4 := hlen
  obtain ⟨a, b, c2, d, hl⟩ := length_eq_four hlen2
  subst hl
  rcases hc with ⟨rfl, rfl⟩ | ⟨rfl, rfl⟩ | ⟨rfl, rfl⟩ | ⟨rfl, rfl⟩ <;>
    rcases hv with rfl | rfl <;> exact ⟨rfl, rfl⟩

/-- Witness for C2: "LED:G1\n" from the freshly initialized state. -/
theorem led_set_channel_ok_witness :
    SPI_Slave_GetLED 0
        (HAL_SPI_TxRxCpltCallback (mkFrame [76, 69, 68, 58, 71, 49, 10])
          (SPI_Slave_Init initialStatics)).ledStates
      = (if 49 = 49 then 1 else 0) ∧
    (HAL_SPI_TxRxCpltCallback (mkFrame [76, 69, 68, 58, 71, 49, 10])
        (SPI_Slave_Init initialStatics)).txBuffer
      = bufferWith okResp :=
  led_set_channel_ok 71 49 0 (SPI_Slave_Init initialStatics)
    (Or.inl ⟨rfl, rfl⟩) (Or.inr rfl) (by decide)

/-- C3: for every prior channel state satisfying the ledStates
invariant, processing "GET:LED\n" produces exactly "STA:" followed by
the four channel values in index order 0..3, each rendered as the
ASCII digit 48 + value (so '0' or '1'), followed by a newline, and
changes no channel state. -/
theorem get_led_status (s : SlaveState) (hinv : LedInv s.ledStates) :
    (HAL_SPI_TxRxCpltCallback (mkFrame [71, 69, 84, 58, 76, 69, 68, 10]) s).ledStates
      = s.ledStates ∧
    (HAL_SPI_TxRxCpltCallback (mkFrame [71, 69, 84, 58, 76, 69, 68, 10]) s).txBuffer
      = bufferWith ([83, 84, 65, 58] ++ s.ledStates.map (fun v => 48 + v) ++ [10]) ∧
    ∀ b ∈ s.ledStates.map (fun v => 48 + v), b = 48 ∨ b = 49 := by
  obtain ⟨a, b, c, d, hl⟩ := length_eq_four hinv.1
  have ha := hinv.2 a (by rw [hl]; simp)
  have hb := hinv.2 b (by rw [hl]; simp)
  have hc := hinv.2 c (by rw [hl]; simp)
  have hd := hinv.2 d (by rw [hl]; simp)
  simp only [HAL_SPI_TxRxCpltCallback]
  rw [hl]
  rcases ha with rfl | rfl <;> rcases hb with rfl | rfl <;>
    rcases hc with rfl | rfl <;> rcases hd with rfl | rfl <;>
    exact ⟨rfl, rfl, by decide⟩

/-- Witness for C3 at the state with channels 1, 0, 1, 0. -/
theorem get_led_status_witness :
    (HAL_SPI_TxRxCpltCallback (mkFrame [71, 69, 84, 58, 76, 69, 68, 10])
        (⟨[1, 0, 1, 0], zeroFrame, zeroFrame, true⟩ : SlaveState)).ledStates
      = (⟨[1, 0, 1, 0], zeroFrame, zeroFrame, true⟩ : SlaveState).ledStates ∧
    (HAL_SPI_TxRxCpltCallback (mkFrame [71, 69, 84, 58, 76, 69, 68, 10])
        (⟨[1, 0, 1, 0], zeroFrame, zeroFrame, true⟩ : SlaveState)).txBuffer
      = bufferWith ([83, 84, 65, 58]
          ++ (⟨[1, 0, 1, 0], zeroFrame, zeroFrame, true⟩ : SlaveState).ledStates.map
            (fun v => 48 + v) ++ [10]) ∧
    ∀ b ∈ (⟨[1, 0, 1, 0], zeroFrame, zeroFrame, true⟩ : SlaveState).ledStates.map
      (fun v => 48 + v), b = 48 ∨ b = 49 :=
  get_led_status ⟨[1, 0, 1, 0], zeroFrame, zeroFrame, true⟩ (by decide)

/-- C4: for every inbound frame whose token parses to no grammar
production, the completion callback leaves every channel unchanged and
the outbound buffer holds the pre-seeded response "ERR\n". -/
theorem unrecognized_keeps_err (frame : Bytes) (s : SlaveState)
    (h : parseCommand frame = Command.unrecognized) :
    (HAL_SPI_TxRxCpltCallback frame s).ledStates = s.ledStates ∧
    (HAL_SPI_TxRxCpltCallback frame s).txBuffer = bufferWith errResp := by
  constructor
  · show (ProcessCommand frame s.ledStates errResp).1 = s.ledStates
    rw [processCommand_eq_apply, h]
    rfl
  · show bufferWith (ProcessCommand frame s.ledStates errResp).2
      = bufferWith errResp
    rw [processCommand_eq_apply, h]
    rfl

/-- Witness for C4 on the claim's four example frames: "FOO\n", a
valid value byte with unknown channel symbol "LED:X1\n", a valid
channel with invalid value byte "LED:G2\n", and the all-zero frame. -/
theorem unrecognized_keeps_err_witness :
    ((HAL_SPI_TxRxCpltCallback (mkFrame [70, 79, 79, 10])
        (⟨[1, 0, 1, 0], zeroFrame, zeroFrame, true⟩ : SlaveState)).ledStates
      = (⟨[1, 0, 1, 0], zeroFrame, zeroFrame, true⟩ : SlaveState).ledStates ∧
    (HAL_SPI_TxRxCpltCallback (mkFrame [70, 79, 79, 10])
        (⟨[1, 0, 1, 0], zeroFrame, zeroFrame, true⟩ : SlaveState)).txBuffer
      = bufferWith errResp) ∧
    ((HAL_SPI_TxRxCpltCallback (mkFrame [76, 69, 68, 58, 88, 49, 10])
        (⟨[1, 0, 1, 0], zeroFrame, zeroFrame, true⟩ : SlaveState)).ledStates
      = (⟨[1, 0, 1, 0], zeroFrame, zeroFrame, true⟩ : SlaveState).ledStates ∧
    (HAL_SPI_TxRxCpltCallback (mkFrame [76, 69, 68, 58, 88, 49, 10])
        (⟨[1, 0, 1, 0], zeroFrame, zeroFrame, true⟩ : SlaveState)).txBuffer
      = bufferWith errResp) ∧
    ((HAL_SPI_TxRxCpltCallback (mkFrame [76, 69, 68, 58, 71, 50, 10])
        (⟨[1, 0, 1, 0], zeroFrame, zeroFrame, true⟩ : SlaveState)).ledStates
      = (⟨[1, 0, 1, 0], zeroFrame, zeroFrame, true⟩ : SlaveState).ledStates ∧
    (HAL_SPI_TxRxCpltCallback (mkFrame [76, 69, 68, 58, 71, 50, 10])
        (⟨[1, 0, 1, 0], zeroFrame, zeroFrame, true⟩ : SlaveState)).txBuffer
      = bufferWith errResp) ∧
    ((HAL_SPI_TxRxCpltCallback zeroFrame
        (⟨[1, 0, 1, 0], zeroFrame, zeroFrame, true⟩ : SlaveState)).ledStates
      = (⟨[1, 0, 1, 0], zeroFrame, zeroFrame, true⟩ : SlaveState).ledStates ∧
    (HAL_SPI_TxRxCpltCallback zeroFrame
        (⟨[1, 0, 1, 0], zeroFrame, zeroFrame, true⟩ : SlaveState)).txBuffer
      = bufferWith errResp) :=
  ⟨unrecognized_keeps_err _ _ (by decide),
   unrecognized_keeps_err _ _ (by decide),
   unrecognized_keeps_err _ _ (by decide),
   unrecognized_keeps_err _ _ (by decide)⟩

/-- C5 evaluation at the failing input: on the unrecognized frame
"FOO\n" from the freshly initialized state, the interrupt path yields
the pre-seeded "ERR\n", but one successful SPI_Slave_Poll call — whose
local response array is uninitialized (modelled here as the junk
content [88], one 'X' byte before a zero) and never seeded with
"ERR\n" — copies that junk into txBuffer instead, so the two drivers
disagree on the outbound buffer (while agreeing on the channel
state). -/
theorem poll_uninitialized_response_diverges :
    (SPI_Slave_Poll (mkFrame [70, 79, 79, 10]) [88]
        (SPI_Slave_Init initialStatics)).ledStates
      = (HAL_SPI_TxRxCpltCallback (mkFrame [70, 79, 79, 10])
          (SPI_Slave_Init initialStatics)).ledStates ∧
    (HAL_SPI_TxRxCpltCallback (mkFrame [70, 79, 79, 10])
        (SPI_Slave_Init initialStatics)).txBuffer = bufferWith errResp ∧
    (SPI_Slave_Poll (mkFrame [70, 79, 79, 10]) [88]
        (SPI_Slave_Init initialStatics)).txBuffer = bufferWithStrcpy [88] ∧
    (SPI_Slave_Poll (mkFrame [70, 79, 79, 10]) [88]
        (SPI_Slave_Init initialStatics)).txBuffer
      ≠ (HAL_SPI_TxRxCpltCallback (mkFrame [70, 79, 79, 10])
          (SPI_Slave_Init initialStatics)).txBuffer := by
  decide

/-- C6: "LED:A1\n" sets all four channels to 1 and responds "OK\n";
"LED:A0\n" sets all four channels to 0 and responds "OK\n"; and
LED_SetAll is LED_SetState applied at every channel index in
increasing order 0, 1, 2, 3. -/
theorem set_all_command (s : SlaveState) (hlen : s.ledStates.length = 4) :
    (HAL_SPI_TxRxCpltCallback (mkFrame [76, 69, 68, 58, 65, 49, 10]) s).ledStates
      = [1, 1, 1, 1] ∧
    (HAL_SPI_TxRxCpltCallback (mkFrame [76, 69, 68, 58, 65, 49, 10]) s).txBuffer
      = bufferWith okResp ∧
    (HAL_SPI_TxRxCpltCallback (mkFrame [76, 69, 68, 58, 65, 48, 10]) s).ledStates
      = [0, 0, 0, 0] ∧
    (HAL_SPI_TxRxCpltCallback (mkFrame [76, 69, 68, 58, 65, 48, 10]) s).txBuffer
      = bufferWith okResp ∧
    ∀ (st : Nat) (led : Bytes), LED_SetAll st led
      = LED_SetState 3 st (LED_SetState 2 st
          (LED_SetState 1 st (LED_SetState 0 st led))) := by
  obtain ⟨led, rx, tx, ar⟩ := s
  have hlen2 : led.length = 4 := hlen
  obtain ⟨a, b, c, d, hl⟩ := length_eq_four hlen2
  subst hl
  exact ⟨rfl, rfl, rfl, rfl, fun _ _ => rfl⟩

/-- Witness for C6 from the freshly initialized state. -/
theorem set_all_command_witness :
    (HAL_SPI_TxRxCpltCallback (mkFrame [76, 69, 68, 58, 65, 49, 10])
        (SPI_Slave_Init initialStatics)).ledStates = [1, 1, 1, 1] ∧
    (HAL_SPI_TxRxCpltCallback (mkFrame [76, 69, 68, 58, 65, 49, 10])
        (SPI_Slave_Init initialStatics)).txBuffer = bufferWith okResp ∧
    (HAL_SPI_TxRxCpltCallback (mkFrame [76, 69, 68, 58, 65, 48, 10])
        (SPI_Slave_Init initialStatics)).ledStates = [0, 0, 0, 0] ∧
    (HAL_SPI_TxRxCpltCallback (mkFrame [76, 69, 68, 58, 65, 48, 10])
        (SPI_Slave_Init initialStatics)).txBuffer = bufferWith okResp ∧
    ∀ (st : Nat) (led : Bytes), LED_SetAll st led
      = LED_SetState 3 st (LED_SetState 2 st
          (LED_SetState 1 st (LED_SetState 0 st led))) :=
  set_all_command (SPI_Slave_Init initialStatics) (by decide)

/-- C7: from every state whose ledStates array has its four cells, a
transport fault (handled by zeroing both buffers, forcing "ERR\n"
outbound and re-arming) followed by the next valid frame "LED:G1\n"
still sets channel 0 to 1 and responds "OK\n": no lockup, no
corruption of subsequent command processing. -/
theorem fault_then_command_ok (s : SlaveState)
    (hlen : s.ledStates.length = 4) :
    (HAL_SPI_ErrorCallback s).armed = true ∧
    (HAL_SPI_ErrorCallback s).txBuffer = bufferWith errResp ∧
    (HAL_SPI_ErrorCallback s).rxBuffer = zeroFrame ∧
    SPI_Slave_GetLED 0
        (HAL_SPI_TxRxCpltCallback (mkFrame [76, 69, 68, 58, 71, 49, 10])
          (HAL_SPI_ErrorCallback s)).ledStates = 1 ∧
    (HAL_SPI_TxRxCpltCallback (mkFrame [76, 69, 68, 58, 71, 49, 10])
        (HAL_SPI_ErrorCallback s)).txBuffer = bufferWith okResp := by
  obtain ⟨led, rx, tx, ar⟩ := s
  have hlen2 : led.length = 4 := hlen
  obtain ⟨a, b, c, d, hl⟩ := length_eq_four hlen2
  subst hl
  exact ⟨rfl, rfl, rfl, rfl, rfl⟩

/-- Witness for C7 at the state with channels 0, 1, 1, 0. -/
theorem fault_then_command_ok_witness :
    (HAL_SPI_ErrorCallback
        (⟨[0, 1, 1, 0], zeroFrame, zeroFrame, true⟩ : SlaveState)).armed = true ∧
    (HAL_SPI_ErrorCallback
        (⟨[0, 1, 1, 0], zeroFrame, zeroFrame, true⟩ : SlaveState)).txBuffer
      = bufferWith errResp ∧
    (HAL_SPI_ErrorCallback
        (⟨[0, 1, 1, 0], zeroFrame, zeroFrame, true⟩ : SlaveState)).rxBuffer
      = zeroFrame ∧
    SPI_Slave_GetLED 0
        (HAL_SPI_TxRxCpltCallback (mkFrame [76, 69, 68, 58, 71, 49, 10])
          (HAL_SPI_ErrorCallback
            (⟨[0, 1, 1, 0], zeroFrame, zeroFrame, true⟩ : SlaveState))).ledStates
      = 1 ∧
    (HAL_SPI_TxRxCpltCallback (mkFrame [76, 69, 68, 58, 71, 49, 10])
        (HAL_SPI_ErrorCallback
          (⟨[0, 1, 1, 0], zeroFrame, zeroFrame, true⟩ : SlaveState))).txBuffer
      = bufferWith okResp :=
  fault_then_command_ok ⟨[0, 1, 1, 0], zeroFrame, zeroFrame, true⟩ (by decide)

/-- C8: for every index at least 4 and every state value,
SPI_Slave_SetLED is a silent no-op on the channel array and
SPI_Slave_GetLED returns the defined default 0; for every index below
4, SPI_Slave_GetLED is exactly the read of the stored cell (a pure
read — the function takes the array and returns a value, with no
other effect in the model). -/
theorem invalid_index_noop (index state : Nat) (led : Bytes) :
    (4 ≤ index → SPI_Slave_SetLED index state led = led ∧
      SPI_Slave_GetLED index led = 0) ∧
    (index < 4 → SPI_Slave_GetLED index led = led.getD index 0) := by
  refine ⟨fun h => ⟨?_, ?_⟩, fun h => ?_⟩
  · simp [SPI_Slave_SetLED, LED_SetState, h]
  · simp [SPI_Slave_GetLED, h]
  · simp [SPI_Slave_GetLED, Nat.not_le.mpr h]

/-- Witness for C8 at the out-of-range index 9 with state 7, and the
in-range index 2, on the array with channels 1, 0, 1, 0. -/
theorem invalid_index_noop_witness :
    ((4 ≤ 9 → SPI_Slave_SetLED 9 7 [1, 0, 1, 0] = [1, 0, 1, 0] ∧
      SPI_Slave_GetLED 9 [1, 0, 1, 0] = 0) ∧
    (9 < 4 → SPI_Slave_GetLED 9 [1, 0, 1, 0] = [1, 0, 1, 0].getD 9 0)) ∧
    ((4 ≤ 2 → SPI_Slave_SetLED 2 7 [1, 0, 1, 0] = [1, 0, 1, 0] ∧
      SPI_Slave_GetLED 2 [1, 0, 1, 0] = 0) ∧
    (2 < 4 → SPI_Slave_GetLED 2 [1, 0, 1, 0] = [1, 0, 1, 0].getD 2 0)) :=
  ⟨invalid_index_noop 9 7 [1, 0, 1, 0], invalid_index_noop 2 7 [1, 0, 1, 0]⟩

/-- C9: for every 32-byte inbound frame, the token extraction copies
at most 31 bytes, reads only the first 31 bytes of the frame, yields a
token free of NUL and newline bytes (so the forced terminator lands in
bounds), and the completion callback's outbound buffer is always one
of the three well-formed results: "OK\n", the pre-seeded "ERR\n", or
the STA status line — a deterministic result, never anything else. -/
theorem parser_bounded_safe (frame : Bytes) (s : SlaveState)
    (hlen : frame.length = BUFFER_SIZE) :
    (extractToken frame).length ≤ BUFFER_SIZE - 1 ∧
    extractToken frame = extractToken (frame.take (BUFFER_SIZE - 1)) ∧
    (∀ b ∈ extractToken frame, b ≠ 0 ∧ b ≠ 10) ∧
    ((HAL_SPI_TxRxCpltCallback frame s).txBuffer = bufferWith okResp ∨
     (HAL_SPI_TxRxCpltCallback frame s).txBuffer = bufferWith errResp ∨
     (HAL_SPI_TxRxCpltCallback frame s).txBuffer
       = bufferWith (staBytes s.ledStates)) := by
  refine ⟨?_, ?_, ?_, ?_⟩
  · calc (extractToken frame).length
        ≤ (frame.take (BUFFER_SIZE - 1)).length :=
          (List.takeWhile_sublist _).length_le
      _ ≤ BUFFER_SIZE - 1 := List.length_take_le _ _
  · simp [extractToken, List.take_take]
  · intro b hb
    have hp := List.mem_takeWhile_imp hb
    simp only [bne, Bool.and_eq_true, bne_iff_ne, ne_eq,
      Bool.not_eq_eq_eq_not, Bool.not_true, beq_eq_false_iff_ne] at hp
    exact ⟨hp.2, hp.1⟩
  · simp only [HAL_SPI_TxRxCpltCallback]
    rw [processCommand_eq_apply]
    cases parseCommand frame <;> simp [applyCommand]

/-- Witness for C9 at the frame filled to capacity: the valid command
"LED:G1" followed by 26 trailing garbage bytes 'Z' and no newline. -/
theorem parser_bounded_safe_witness :
    (extractToken ([76, 69, 68, 58, 71, 49] ++ List.replicate 26 90)).length
      ≤ BUFFER_SIZE - 1 ∧
    extractToken ([76, 69, 68, 58, 71, 49] ++ List.replicate 26 90)
      = extractToken (([76, 69, 68, 58, 71, 49]
          ++ List.replicate 26 90).take (BUFFER_SIZE - 1)) ∧
    (∀ b ∈ extractToken ([76, 69, 68, 58, 71, 49] ++ List.replicate 26 90),
      b ≠ 0 ∧ b ≠ 10) ∧
    ((HAL_SPI_TxRxCpltCallback ([76, 69, 68, 58, 71, 49] ++ List.replicate 26 90)
        (SPI_Slave_Init initialStatics)).txBuffer = bufferWith okResp ∨
     (HAL_SPI_TxRxCpltCallback ([76, 69, 68, 58, 71, 49] ++ List.replicate 26 90)
        (SPI_Slave_Init initialStatics)).txBuffer = bufferWith errResp ∨
     (HAL_SPI_TxRxCpltCallback ([76, 69, 68, 58, 71, 49] ++ List.replicate 26 90)
        (SPI_Slave_Init initialStatics)).txBuffer
       = bufferWith (staBytes (SPI_Slave_Init initialStatics).ledStates)) :=
  parser_bounded_safe ([76, 69, 68, 58, 71, 49] ++ List.replicate 26 90)
    (SPI_Slave_Init initialStatics) (by decide)

/-- C10: every operation of the module keeps the four ledStates cells
in {0, 1} — including SPI_Slave_SetLED at an arbitrary nonzero state
argument, which LED_SetState normalizes to 1 — and consequently
SPI_Slave_GetLED only ever returns 0 or 1 and every digit of the STA
status line is '0' (48) or '1' (49). -/
theorem led_states_binary (s : SlaveState) (frame junk : Bytes)
    (index state : Nat) (hinv : LedInv s.ledStates) :
    LedInv (SPI_Slave_Init s).ledStates ∧
    LedInv (HAL_SPI_TxRxCpltCallback frame s).ledStates ∧
    LedInv (HAL_SPI_ErrorCallback s).ledStates ∧
    LedInv (SPI_Slave_Poll frame junk s).ledStates ∧
    LedInv (SPI_Slave_SetLED index state s.ledStates) ∧
    (SPI_Slave_GetLED index s.ledStates = 0 ∨
      SPI_Slave_GetLED index s.ledStates = 1) ∧
    staBytes s.ledStates
      = [83, 84, 65, 58] ++ s.ledStates.map (fun v => 48 + v) ++ [10] ∧
    ∀ b ∈ s.ledStates.map (fun v => 48 + v), b = 48 ∨ b = 49 := by
  refine ⟨ledInv_setAll 0 hinv, ledInv_process frame errResp hinv, hinv,
    ledInv_process frame junk hinv, ledInv_setState index state hinv,
    ?_, ?_, ?_⟩
  · unfold SPI_Slave_GetLED
    split_ifs with hi
    · exact Or.inl rfl
    · exact getD_zero_one hinv.2 index
  · obtain ⟨a, b, c, d, hl⟩ := length_eq_four hinv.1
    have ha := hinv.2 a (by rw [hl]; simp)
    have hb := hinv.2 b (by rw [hl]; simp)
    have hc := hinv.2 c (by rw [hl]; simp)
    have hd := hinv.2 d (by rw [hl]; simp)
    rw [hl]
    rcases ha with rfl | rfl <;> rcases hb with rfl | rfl <;>
      rcases hc with rfl | rfl <;> rcases hd with rfl | rfl <;> decide
  · obtain ⟨a, b, c, d, hl⟩ := length_eq_four hinv.1
    have ha := hinv.2 a (by rw [hl]; simp)
    have hb := hinv.2 b (by rw [hl]; simp)
    have hc := hinv.2 c (by rw [hl]; simp)
    have hd := hinv.2 d (by rw [hl]; simp)
    rw [hl]
    rcases ha with rfl | rfl <;> rcases hb with rfl | rfl <;>
      rcases hc with rfl | rfl <;> rcases hd with rfl | rfl <;> decide

/-- Witness for C10 at the state with channels 0, 1, 0, 1, the frame
"FOO\n", junk response content [88], index 2 and the arbitrary nonzero
state value 7. -/
theorem led_states_binary_witness :
    LedInv (SPI_Slave_Init
        (⟨[0, 1, 0, 1], zeroFrame, zeroFrame, true⟩ : SlaveState)).ledStates ∧
    LedInv (HAL_SPI_TxRxCpltCallback (mkFrame [70, 79, 79, 10])
        (⟨[0, 1, 0, 1], zeroFrame, zeroFrame, true⟩ : SlaveState)).ledStates ∧
    LedInv (HAL_SPI_ErrorCallback
        (⟨[0, 1, 0, 1], zeroFrame, zeroFrame, true⟩ : SlaveState)).ledStates ∧
    LedInv (SPI_Slave_Poll (mkFrame [70, 79, 79, 10]) [88]
        (⟨[0, 1, 0, 1], zeroFrame, zeroFrame, true⟩ : SlaveState)).ledStates ∧
    LedInv (SPI_Slave_SetLED 2 7
        (⟨[0, 1, 0, 1], zeroFrame, zeroFrame, true⟩ : SlaveState).ledStates) ∧
    (SPI_Slave_GetLED 2
        (⟨[0, 1, 0, 1], zeroFrame, zeroFrame, true⟩ : SlaveState).ledStates = 0 ∨
      SPI_Slave_GetLED 2
        (⟨[0, 1, 0, 1], zeroFrame, zeroFrame, true⟩ : SlaveState).ledStates = 1) ∧
    staBytes (⟨[0, 1, 0, 1], zeroFrame, zeroFrame, true⟩ : SlaveState).ledStates
      = [83, 84, 65, 58]
        ++ (⟨[0, 1, 0, 1], zeroFrame, zeroFrame, true⟩ : SlaveState).ledStates.map
          (fun v => 48 + v) ++ [10] ∧
    ∀ b ∈ (⟨[0, 1, 0, 1], zeroFrame, zeroFrame, true⟩ : SlaveState).ledStates.map
      (fun v => 48 + v), b = 48 ∨ b = 49 :=
  led_states_binary ⟨[0, 1, 0, 1], zeroFrame, zeroFrame, true⟩
    (mkFrame [70, 79, 79, 10]) [88] 2 7 (by decide)

end SpiSlave
